import Mathlib

/-!
Verification of the typed-dtype dispatch and promotion engine of
`array_host_ops.cc`: the dtype promotion rules (`DTypePromotionRank`,
`PromoteArithmeticTypes`), the conversion kernel family
(`GenericElementwiseConvert` with the `Convert*Functor` dispatch tables), the
elementwise binary dispatch table, and the `bfloat16_t` bit-level conversions.
Floating-point element values are kept abstract; the integer fragment of the
element-level semantics is modelled exactly (bit patterns as `Nat`, reads as
`Int` with explicit two's-complement decoding).
-/

namespace ShortfinHostOps

/-- Runtime element-type tags. Modelled from the spec: the DType descriptor is
an external, identity-comparable tag with classification queries; the tag set
is the one used by the kernel families in the source (boolean, all integer
widths, all float widths including the narrow emulated formats, complex). -/
inductive DType where
  | bool_
  | uint8 | uint16 | uint32 | uint64
  | int8 | int16 | int32 | int64
  | float8_e4m3fn | float8_e4m3fnuz
  | float16 | bfloat16 | float32 | float64
  | complex64 | complex128
deriving DecidableEq, Repr, Fintype

/-- Modelled from the spec: classification query `is_boolean` of the external
DType descriptor (the four classes boolean/integer/float/complex partition the
dtype set). -/
def DType.is_boolean : DType → Bool
  | .bool_ => true
  | _ => false

/-- Modelled from the spec: classification query `is_integer` of the external
DType descriptor. -/
def DType.is_integer : DType → Bool
  | .uint8 | .uint16 | .uint32 | .uint64 => true
  | .int8 | .int16 | .int32 | .int64 => true
  | _ => false

/-- Modelled from the spec: classification query `is_float` of the external
DType descriptor (narrow emulated floats included). -/
def DType.is_float : DType → Bool
  | .float8_e4m3fn | .float8_e4m3fnuz => true
  | .float16 | .bfloat16 | .float32 | .float64 => true
  | _ => false

/-- Modelled from the spec: classification query `is_complex` of the external
DType descriptor. -/
def DType.is_complex : DType → Bool
  | .complex64 | .complex128 => true
  | _ => false

/-- Modelled from the spec: `bit_count` query of the external DType
descriptor (boolean is stored in 8 bits). -/
def DType.bit_count : DType → Nat
  | .bool_ => 8
  | .uint8 | .int8 | .float8_e4m3fn | .float8_e4m3fnuz => 8
  | .uint16 | .int16 | .float16 | .bfloat16 => 16
  | .uint32 | .int32 | .float32 => 32
  | .uint64 | .int64 | .float64 => 64
  | .complex64 => 64
  | .complex128 => 128

/-- Modelled from the spec: the signedness query used by the promotion
post-processing (`iree_all_bits_set(numerical_type, INTEGER_UNSIGNED)` on the
external descriptor); the unsigned integer dtypes are uint8..uint64. -/
def DType.is_unsigned_integer : DType → Bool
  | .uint8 | .uint16 | .uint32 | .uint64 => true
  | _ => false

/-- Modelled from the spec: the `classification_weight` of section 4.2 step 3
(1000 for boolean, 2000 for integer, 4000 for float, 8000 for complex); used
only to compare against the source's `DTypePromotionRank`. -/
def classification_weight (dtype : DType) : Nat :=
  if dtype.is_boolean then 1000
  else if dtype.is_integer then 2000
  else if dtype.is_float then 4000
  else 8000

/-- `DTypePromotionRank` from the source: start from 1, scale by the class
weight, add the bit count. -/
def DTypePromotionRank (dtype : DType) : Nat :=
  let rank := 1
  let rank :=
    if dtype.is_boolean then rank * 1000
    else if dtype.is_integer then rank * 2000
    else if dtype.is_float then rank * 4000
    else if dtype.is_complex then rank * 8000
    else rank
  rank + dtype.bit_count

/-- Error conditions surfaced by the host ops. `invalidArgument` carries the
thrown message; `unsupportedDType` abstracts the formatted message
`Unsupported dtype(<named>) for <operation>` by carrying the dtype the message
names and the operation text. -/
inductive HostOpError where
  | invalidArgument (message : String)
  | unsupportedDType (named : DType) (operation : String)
deriving DecidableEq, Repr

/-- The pre-escalation winner of `PromoteArithmeticTypes`:
`lhs_rank < rhs_rank ? *rhs_dtype : *lhs_dtype`. -/
def PromotedBeforeEscalation (lhs_dtype rhs_dtype : DType) : DType :=
  if DTypePromotionRank lhs_dtype < DTypePromotionRank rhs_dtype then rhs_dtype
  else lhs_dtype

/-- The signed/unsigned mismatch switch of `PromoteArithmeticTypes`: promote
the winning integer dtype to the next larger signed dtype, saturating at
int64. -/
def EscalateSignedMismatch : DType → DType
  | .uint8 | .int8 => .int16
  | .uint16 | .int16 => .int32
  | .uint32 | .int32 => .int64
  | _ => .int64

/-- `PromoteArithmeticTypes` from the source: fail when both operand dtypes
are absent, pass through a lone present dtype, otherwise pick the higher-rank
side (ties to the left) and post-process integer signedness mismatches. -/
def PromoteArithmeticTypes (lhs_dtype rhs_dtype : Option DType) :
    Except HostOpError DType :=
  match lhs_dtype, rhs_dtype with
  | none, none =>
    .error (.invalidArgument
      "Elementwise operators require at least one argument to be a device_array")
  | none, some r => .ok r
  | some l, none => .ok l
  | some l, some r =>
    let promoted_dtype := PromotedBeforeEscalation l r
    if promoted_dtype.is_integer then
      let lhs_unsigned := l.is_unsigned_integer
      let rhs_unsigned := r.is_unsigned_integer
      if (lhs_unsigned || rhs_unsigned) && !(lhs_unsigned && rhs_unsigned) then
        .ok (EscalateSignedMismatch promoted_dtype)
      else
        .ok promoted_dtype
    else
      .ok promoted_dtype

/-- C++ element types appearing in the dispatch tables of the source. -/
inductive CppType where
  | u8 | i8 | u16 | i16 | u32 | i32 | u64 | i64
  | f16 | bf16 | f8e4m3fn | f8e4m3fnuz | f32 | f64
deriving DecidableEq, Repr, Fintype

/-- Bit width of the integer C++ element types (none for float types, whose
values are kept abstract). -/
def CppType.intWidth : CppType → Option Nat
  | .u8 | .i8 => some 8
  | .u16 | .i16 => some 16
  | .u32 | .i32 => some 32
  | .u64 | .i64 => some 64
  | _ => none

/-- Whether a C++ integer element type is signed. -/
def CppType.isSigned : CppType → Bool
  | .i8 | .i16 | .i32 | .i64 => true
  | _ => false

/-- Input-dtype dispatch switch of `ConvertFunctor::Invoke` (source lines
621-640). The `int32` case is transcribed as written in the source:
`SF_UNARY_THUNK_CASE(int32, uint32_t)`. -/
def convertInputCase : DType → Option CppType
  | .float8_e4m3fnuz => some .f8e4m3fnuz
  | .float8_e4m3fn => some .f8e4m3fn
  | .float16 => some .f16
  | .bfloat16 => some .bf16
  | .float32 => some .f32
  | .float64 => some .f64
  | .uint8 => some .u8
  | .int8 => some .i8
  | .uint16 => some .u16
  | .int16 => some .i16
  | .uint32 => some .u32
  | .int32 => some .u32
  | .uint64 => some .u64
  | .int64 => some .i64
  | _ => none

/-- Output-dtype store switch of `ConvertFunctor::Invoke` (the inner
`SF_STORE_CASE` table, source lines 599-616); this table pairs every tag with
its matching element type, `int32` included. -/
def convertStoreCase : DType → Option CppType
  | .float16 => some .f16
  | .float8_e4m3fnuz => some .f8e4m3fnuz
  | .float8_e4m3fn => some .f8e4m3fn
  | .bfloat16 => some .bf16
  | .float32 => some .f32
  | .float64 => some .f64
  | .uint8 => some .u8
  | .int8 => some .i8
  | .uint16 => some .u16
  | .int16 => some .i16
  | .uint32 => some .u32
  | .int32 => some .i32
  | .uint64 => some .u64
  | .int64 => some .i64
  | _ => none

/-- Input-dtype dispatch switch shared by the round/ceil/floor/trunc functors
(floating dtypes only, float64 excluded). -/
def roundInputCase : DType → Option CppType
  | .float8_e4m3fnuz => some .f8e4m3fnuz
  | .float8_e4m3fn => some .f8e4m3fn
  | .float16 => some .f16
  | .bfloat16 => some .bf16
  | .float32 => some .f32
  | _ => none

/-- Output-dtype store switch shared by the round/ceil/floor/trunc functors
when the output dtype differs from the input dtype (integer types of 8 to 32
bits only). -/
def roundStoreCase : DType → Option CppType
  | .uint8 => some .u8
  | .int8 => some .i8
  | .uint16 => some .u16
  | .int16 => some .i16
  | .uint32 => some .u32
  | .int32 => some .i32
  | _ => none

/-- Compute-dtype dispatch switch of `ElementwiseOperation` (source lines
1049-1067). The `int32` case is transcribed as written in the source:
`SF_UNARY_FUNCTION_CASE(int32, uint32_t)`. -/
def elementwiseCase : DType → Option CppType
  | .float8_e4m3fnuz => some .f8e4m3fnuz
  | .float8_e4m3fn => some .f8e4m3fn
  | .float16 => some .f16
  | .bfloat16 => some .bf16
  | .float32 => some .f32
  | .float64 => some .f64
  | .uint8 => some .u8
  | .int8 => some .i8
  | .uint16 => some .u16
  | .int16 => some .i16
  | .uint32 => some .u32
  | .int32 => some .u32
  | .uint64 => some .u64
  | .int64 => some .i64
  | _ => none

/-- The five conversion kernels bound by `SF_DEF_CONVERT`. -/
inductive ConvFamily where
  | convert | ceil | floor | round | trunc
deriving DecidableEq, Repr, Fintype

/-- Input-dtype dispatch table of each conversion family: `convert` uses the
full numeric table, the four rounding kernels share the float-only table. -/
def familyInputCase : ConvFamily → DType → Option CppType
  | .convert, d => convertInputCase d
  | _, d => roundInputCase d

/-- The statically-typed path a conversion functor selects: the element type
the input is mapped and computed in, and the element type the result is cast
to and stored as. -/
structure ConvertPlan where
  computeIn : CppType
  storeAs : CppType
deriving DecidableEq, Repr

/-- Dispatch structure of `Convert*Functor::Invoke`: the outer switch on the
input dtype (throwing `Unsupported dtype(<dtype>) for converting nearest
integer op` — note the message names the `dtype` parameter, i.e. the output
dtype); then, for the rounding functors, the same-dtype direct store or the
inner casted-store switch; for `ConvertFunctor`, always the inner store
switch. -/
def FunctorInvokePlan (family : ConvFamily) (input_dtype dtype : DType) :
    Except HostOpError ConvertPlan :=
  match familyInputCase family input_dtype with
  | none => .error (.unsupportedDType dtype "converting nearest integer op")
  | some eltTy =>
    match family with
    | .convert =>
      match convertStoreCase dtype with
      | none => .error (.invalidArgument "Invalid output dtype for convert op")
      | some storeTy => .ok ⟨eltTy, storeTy⟩
    | _ =>
      if input_dtype = dtype then
        .ok ⟨eltTy, eltTy⟩
      else
        match roundStoreCase dtype with
        | none =>
          .error (.invalidArgument
            "Invalid output dtype for converting nearest integer op")
        | some storeTy => .ok ⟨eltTy, storeTy⟩

instance {ε α : Type} [DecidableEq ε] [DecidableEq α] :
    DecidableEq (Except ε α) := fun x y =>
  match x, y with
  | .ok a, .ok b =>
    if h : a = b then .isTrue (by rw [h]) else .isFalse (by simp [h])
  | .error a, .error b =>
    if h : a = b then .isTrue (by rw [h]) else .isFalse (by simp [h])
  | .ok _, .error _ => .isFalse (by simp)
  | .error _, .ok _ => .isFalse (by simp)

/-- A device array, abstracted to the structural data the conversion entry
point inspects: its dtype and its shape. -/
structure DeviceArray where
  dtype : DType
  shape : List Nat
deriving DecidableEq, Repr

/-- Observable outcome of one `GenericElementwiseConvert` call: the fresh
output buffer the call allocated (if any), and either the returned array
together with the dispatch plan the functor selected, or the error thrown. -/
structure ConvertCall where
  fresh : Option DeviceArray
  outcome : Except HostOpError (DeviceArray × ConvertPlan)
deriving DecidableEq, Repr

/-- `GenericElementwiseConvert` from the source: decide the output dtype
(defaulting to the out buffer's dtype, else the input's dtype; rejecting a
mismatched explicit dtype/out pair), allocate a fresh output buffer of the
decided dtype and the input's shape when none was given, then invoke the
family's functor. -/
def GenericElementwiseConvert (family : ConvFamily) (input : DeviceArray)
    (dtype : Option DType) (out : Option DeviceArray) : ConvertCall :=
  let decided : Except HostOpError DType :=
    match dtype with
    | none =>
      .ok (match out with
           | some o => o.dtype
           | none => input.dtype)
    | some d =>
      match out with
      | some o =>
        if o.dtype ≠ d then
          .error (.invalidArgument
            "if both dtype and out are specified, they must match")
        else .ok d
      | none => .ok d
  match decided with
  | .error e => ⟨none, .error e⟩
  | .ok d =>
    let outArr : DeviceArray :=
      match out with
      | some o => o
      | none => ⟨d, input.shape⟩
    let fresh : Option DeviceArray :=
      match out with
      | some _ => none
      | none => some ⟨d, input.shape⟩
    match FunctorInvokePlan family input.dtype d with
    | .error e => ⟨fresh, .error e⟩
    | .ok plan => ⟨fresh, .ok (outArr, plan)⟩

/-- Read a stored bit pattern as a value of an integer C++ element type
(two's complement for the signed types); none for float element types, whose
values are kept abstract. -/
def readIntElt (t : CppType) (bits : Nat) : Option Int :=
  match t.intWidth with
  | none => none
  | some w =>
    let b := bits % 2 ^ w
    if t.isSigned = true ∧ 2 ^ (w - 1) ≤ b then some ((b : Int) - 2 ^ w)
    else some (b : Int)

/-- Store an integer value into an integer C++ element type, with the modular
wraparound of a C++ integer conversion. -/
def storeIntElt (t : CppType) (v : Int) : Option Nat :=
  match t.intWidth with
  | none => none
  | some w => some (v % ((2 : Int) ^ w)).toNat

/-- Element-level behavior of the convert kernel on the integer fragment, as
the source dispatches it: the input pattern is read at the element type the
input-dtype switch selects, then cast and stored at the element type the
store switch selects. -/
def convertEltCode (input_dtype dtype : DType) (bits : Nat) : Option Nat :=
  match convertInputCase input_dtype, convertStoreCase dtype with
  | some tin, some tout => (readIntElt tin bits).bind (storeIntElt tout)
  | _, _ => none

/-- Modelled from the spec: static-cast semantics of convert — every tag is
read at the element type corresponding to that tag (the pairing of the
store-case table), then cast and stored. Used only for comparison with
`convertEltCode`. -/
def convertEltSpec (input_dtype dtype : DType) (bits : Nat) : Option Nat :=
  match convertStoreCase input_dtype, convertStoreCase dtype with
  | some tin, some tout => (readIntElt tin bits).bind (storeIntElt tout)
  | _, _ => none

/-- Element-level behavior of the elementwise divide kernel on the integer
fragment, as the source dispatches it: both patterns are read at the element
type the elementwise switch selects for the compute dtype, the C++ quotient
(truncation toward zero) is taken, and the result is stored at that same
element type. -/
def divideEltCode (dtype : DType) (a b : Nat) : Option Nat :=
  match elementwiseCase dtype with
  | some t =>
    (readIntElt t a).bind fun x =>
      (readIntElt t b).bind fun y => storeIntElt t (x.tdiv y)
  | none => none

/-- Modelled from the spec: elementwise divide with each tag computed at the
element type corresponding to that tag (the pairing of the store-case table).
Used only for comparison with `divideEltCode`. -/
def divideEltSpec (dtype : DType) (a b : Nat) : Option Nat :=
  match convertStoreCase dtype with
  | some t =>
    (readIntElt t a).bind fun x =>
      (readIntElt t b).bind fun y => storeIntElt t (x.tdiv y)
  | none => none

/-- `bfloat16_t(float)` from the source: bit-cast the float to 32 bits and
keep the upper 16 (`static_cast<uint16_t>(temp >> 16)`). -/
def bfloat16_of_float_bits (b : Nat) : Nat :=
  ((b % 2 ^ 32) >>> 16) % 2 ^ 16

/-- `bfloat16_t::operator float()` from the source: zero-extend the stored 16
bits into the upper half of a 32-bit pattern
(`static_cast<uint32_t>(value) << 16`). -/
def float_bits_of_bfloat16 (v : Nat) : Nat :=
  (v % 2 ^ 16) <<< 16

/-- C1: the claim states that dispatch instantiates the generic kernel at the
element type corresponding to each dtype tag, so that an int32 input is read
and computed as a signed 32-bit integer. The code instead dispatches the
int32 tag to uint32_t in both the convert input switch and the elementwise
switch (while the store table pairs int32 with int32_t): converting an int32
array holding the bit pattern of -1 to int64 produces 4294967295 instead of
-1, and int32 division of -4 by 2 is computed as an unsigned quotient. -/
theorem C1_int32_dispatched_unsigned :
    convertInputCase .int32 = some .u32
  ∧ convertStoreCase .int32 = some .i32
  ∧ elementwiseCase .int32 = some .u32
  ∧ convertEltCode .int32 .int64 (2 ^ 32 - 1) = some (2 ^ 32 - 1)
  ∧ convertEltSpec .int32 .int64 (2 ^ 32 - 1) = some (2 ^ 64 - 1)
  ∧ divideEltCode .int32 (2 ^ 32 - 4) 2 = some 2147483646
  ∧ divideEltSpec .int32 (2 ^ 32 - 4) 2 = some (2 ^ 32 - 2) := by
  decide

/-- C2: the promotion rank equals the classification weight (1000 boolean,
2000 integer, 4000 float, 8000 complex) plus the bit count, the operand with
the strictly higher rank supplies the winning dtype, and ties go to the
left-hand operand. -/
theorem C2_rank_and_tiebreak : ∀ a b : DType,
    DTypePromotionRank a = classification_weight a + a.bit_count
  ∧ (DTypePromotionRank b < DTypePromotionRank a →
      PromotedBeforeEscalation a b = a)
  ∧ (DTypePromotionRank a < DTypePromotionRank b →
      PromotedBeforeEscalation a b = b)
  ∧ (DTypePromotionRank a = DTypePromotionRank b →
      PromotedBeforeEscalation a b = a) := by
  decide

/-- C2 witness: float32 strictly outranks int8, so it supplies the winner. -/
theorem C2_witness :
    PromotedBeforeEscalation DType.int8 DType.float32 = DType.float32 :=
  (C2_rank_and_tiebreak DType.int8 DType.float32).2.2.1 (by decide)

/-- C3: when the winning dtype is an integer type and exactly one input dtype
is unsigned, the result escalates to the next larger signed width (8-bit
winner gives int16, 16-bit gives int32, 32-bit gives int64) and a 64-bit
mismatch saturates to int64; in particular promote(i8,u8) = i16,
promote(i32,u32) = i64 and promote(u64,i64) = i64. -/
theorem C3_signedness_escalation :
    (∀ a b : DType,
      (PromotedBeforeEscalation a b).is_integer = true →
      a.is_unsigned_integer ≠ b.is_unsigned_integer →
        ((PromotedBeforeEscalation a b).bit_count = 8 →
          PromoteArithmeticTypes (some a) (some b) = .ok .int16)
      ∧ ((PromotedBeforeEscalation a b).bit_count = 16 →
          PromoteArithmeticTypes (some a) (some b) = .ok .int32)
      ∧ ((PromotedBeforeEscalation a b).bit_count = 32 →
          PromoteArithmeticTypes (some a) (some b) = .ok .int64)
      ∧ ((PromotedBeforeEscalation a b).bit_count = 64 →
          PromoteArithmeticTypes (some a) (some b) = .ok .int64))
  ∧ PromoteArithmeticTypes (some .int8) (some .uint8) = .ok .int16
  ∧ PromoteArithmeticTypes (some .int32) (some .uint32) = .ok .int64
  ∧ PromoteArithmeticTypes (some .uint64) (some .int64) = .ok .int64 := by
  decide

/-- C3 witness: uint16 wins over int8 and the signedness mismatch escalates
the 16-bit winner to int32. -/
theorem C3_witness :
    PromoteArithmeticTypes (some DType.uint16) (some DType.int8) =
      Except.ok DType.int32 :=
  ((C3_signedness_escalation.1 DType.uint16 DType.int8 (by decide)
    (by decide)).2.1 (by decide))

/-- C4 counterexample: `round` on a float64 input with no explicit dtype and
no out buffer does fail with unsupported-dtype, but a fresh float64 output
buffer has already been allocated when the failure is detected, refuting the
claim that no output buffer is allocated before the failure. -/
theorem C4_counterexample :
    (GenericElementwiseConvert .round ⟨.float64, [2]⟩ none none).outcome =
      .error (.unsupportedDType .float64 "converting nearest integer op")
  ∧ (GenericElementwiseConvert .round ⟨.float64, [2]⟩ none none).fresh =
      some ⟨.float64, [2]⟩ := by
  decide

/-- C4 amended: for every conversion-family call whose input dtype is outside
the family's dispatch table and to which no out buffer is passed, the call
fails with the unsupported-dtype condition, but only after a fresh output
buffer with the decided dtype and the input's shape has been allocated: the
dtype/out consistency validation precedes allocation, while the input-dtype
support check follows it. -/
theorem C4_unsupported_errors_after_alloc :
    ∀ (family : ConvFamily) (input : DeviceArray) (dtype : Option DType),
    familyInputCase family input.dtype = none →
    (GenericElementwiseConvert family input dtype none).outcome =
      .error (.unsupportedDType (dtype.getD input.dtype)
        "converting nearest integer op")
  ∧ (GenericElementwiseConvert family input dtype none).fresh =
      some ⟨dtype.getD input.dtype, input.shape⟩ := by
  intro family input dtype h
  cases dtype <;>
    simp [GenericElementwiseConvert, FunctorInvokePlan, h, Option.getD]

/-- C4 witness: `round` on a float64 input. -/
theorem C4_witness :
    (GenericElementwiseConvert .round ⟨.float64, [1]⟩ none none).outcome =
      .error (.unsupportedDType .float64 "converting nearest integer op")
  ∧ (GenericElementwiseConvert .round ⟨.float64, [1]⟩ none none).fresh =
      some ⟨.float64, [1]⟩ :=
  C4_unsupported_errors_after_alloc .round ⟨.float64, [1]⟩ none (by decide)

/-- C5: promotion with both dtypes absent fails with invalid-arguments, and
promotion with exactly one dtype absent returns the present dtype unchanged,
for every present dtype. -/
theorem C5_absent_operands :
    PromoteArithmeticTypes none none =
      .error (.invalidArgument
        "Elementwise operators require at least one argument to be a device_array")
  ∧ ∀ d : DType,
      PromoteArithmeticTypes (some d) none = .ok d
    ∧ PromoteArithmeticTypes none (some d) = .ok d := by
  decide

/-- C6: with neither an explicit dtype nor an out buffer the output dtype
defaults to the input's dtype; a mismatched explicit dtype/out pair fails
with invalid-arguments; and when no out buffer is given one is allocated with
the decided dtype and the input's shape. -/
theorem C6_output_dtype_rules :
    ∀ (family : ConvFamily) (input : DeviceArray),
      ((GenericElementwiseConvert family input none none).fresh =
        some ⟨input.dtype, input.shape⟩)
    ∧ (∀ r plan,
        (GenericElementwiseConvert family input none none).outcome =
          .ok (r, plan) → r.dtype = input.dtype)
    ∧ (∀ (d : DType) (o : DeviceArray), o.dtype ≠ d →
        (GenericElementwiseConvert family input (some d) (some o)).outcome =
          .error (.invalidArgument
            "if both dtype and out are specified, they must match"))
    ∧ (∀ dtype : Option DType,
        (GenericElementwiseConvert family input dtype none).fresh =
          some ⟨dtype.getD input.dtype, input.shape⟩) := by
  intro family input
  refine ⟨?_, ?_, ?_, ?_⟩
  · cases h : FunctorInvokePlan family input.dtype input.dtype <;>
      simp [GenericElementwiseConvert, h]
  · intro r plan
    cases h : FunctorInvokePlan family input.dtype input.dtype <;>
      simp [GenericElementwiseConvert, h]
    rintro rfl _
    rfl
  · intro d o hne
    simp [GenericElementwiseConvert, hne]
  · intro dtype
    cases dtype with
    | none =>
      cases h : FunctorInvokePlan family input.dtype input.dtype <;>
        simp [GenericElementwiseConvert, h, Option.getD]
    | some d =>
      cases h : FunctorInvokePlan family input.dtype d <;>
        simp [GenericElementwiseConvert, h, Option.getD]

/-- C6 witness: convert with explicit dtype int8 and a float32 out buffer. -/
theorem C6_witness :
    (GenericElementwiseConvert .convert ⟨.float32, [3]⟩ (some .int8)
      (some ⟨.float32, [3]⟩)).outcome =
      .error (.invalidArgument
        "if both dtype and out are specified, they must match") :=
  (C6_output_dtype_rules .convert ⟨.float32, [3]⟩).2.2.1 .int8 ⟨.float32, [3]⟩
    (by decide)

set_option synthInstance.maxSize 1024 in
set_option maxHeartbeats 1600000 in
/-- C7: for the rounding families, when the output dtype equals the input
dtype the rounded value is stored directly at the input's element type; when
it differs the call succeeds exactly when the output dtype is an integer type
of 8 to 32 bits (any other differing output dtype fails with
invalid-arguments), and the selected plan rounds at the input's element type
before casting to the store type. -/
theorem C7_round_store_contract :
    ∀ (family : ConvFamily) (din dout : DType) (tin : CppType),
    family ≠ .convert →
    familyInputCase family din = some tin →
      (dout = din → FunctorInvokePlan family din dout = .ok ⟨tin, tin⟩)
    ∧ (dout ≠ din →
        ((∃ t, FunctorInvokePlan family din dout = .ok ⟨tin, t⟩) ↔
          dout.is_integer = true ∧ 8 ≤ dout.bit_count ∧ dout.bit_count ≤ 32))
    ∧ (dout ≠ din → roundStoreCase dout = none →
        FunctorInvokePlan family din dout =
          .error (.invalidArgument
            "Invalid output dtype for converting nearest integer op"))
    ∧ (∀ t, dout ≠ din → roundStoreCase dout = some t →
        FunctorInvokePlan family din dout = .ok ⟨tin, t⟩) := by
  decide

/-- C7 witness: round from float32 to int16 rounds in float and casts. -/
theorem C7_witness :
    FunctorInvokePlan .round .float32 .int16 = .ok ⟨.f32, .i16⟩ :=
  ((C7_round_store_contract .round .float32 .int16 .f32 (by decide)
    (by decide)).2.2.2) .i16 (by decide) (by decide)

/-- C8: the claim states the unsupported-dtype message names the offending
input dtype. The code formats the message with the `dtype` parameter, i.e.
the requested output dtype: `round` on an unsupported float64 input with
explicit output dtype int32 reports `Unsupported dtype(int32)` although the
offending dtype is float64 (and int32 is a supported output dtype). -/
theorem C8_message_names_output_dtype :
    roundInputCase .float64 = none
  ∧ roundStoreCase .int32 = some .i32
  ∧ (GenericElementwiseConvert .round ⟨.float64, [1]⟩ (some .int32)
      none).outcome =
      .error (.unsupportedDType .int32 "converting nearest integer op")
  ∧ DType.int32 ≠ DType.float64 := by
  decide

/-- C9: constructing bfloat16 from a 32-bit float pattern keeps exactly the
upper 16 bits (truncation, not rounding), widening zero-extends into the
upper half, every stored 16-bit value survives the widen-narrow round trip,
and every 32-bit pattern with zero low 16 bits survives the narrow-widen
round trip. -/
theorem C9_bfloat16_bit_semantics :
    (∀ b : Nat, b < 2 ^ 32 → bfloat16_of_float_bits b = b / 2 ^ 16)
  ∧ (∀ v : Nat, v < 2 ^ 16 →
      bfloat16_of_float_bits (float_bits_of_bfloat16 v) = v)
  ∧ (∀ b : Nat, b < 2 ^ 32 → b % 2 ^ 16 = 0 →
      float_bits_of_bfloat16 (bfloat16_of_float_bits b) = b) := by
  refine ⟨?_, ?_, ?_⟩
  · intro b hb
    simp only [bfloat16_of_float_bits, Nat.shiftRight_eq_div_pow]
    norm_num at hb ⊢
    omega
  · intro v hv
    simp only [bfloat16_of_float_bits, float_bits_of_bfloat16,
      Nat.shiftRight_eq_div_pow, Nat.shiftLeft_eq]
    norm_num at hv ⊢
    omega
  · intro b hb hm
    simp only [bfloat16_of_float_bits, float_bits_of_bfloat16,
      Nat.shiftRight_eq_div_pow, Nat.shiftLeft_eq]
    norm_num at hb hm ⊢
    omega

/-- C9 witness: concrete bfloat16 bit round trips. -/
theorem C9_witness :
    bfloat16_of_float_bits 196608 = 196608 / 2 ^ 16
  ∧ bfloat16_of_float_bits (float_bits_of_bfloat16 7) = 7
  ∧ float_bits_of_bfloat16 (bfloat16_of_float_bits 196608) = 196608 :=
  ⟨C9_bfloat16_bit_semantics.1 196608 (by norm_num),
   C9_bfloat16_bit_semantics.2.1 7 (by norm_num),
   C9_bfloat16_bit_semantics.2.2 196608 (by norm_num) (by norm_num)⟩

/-- C10 counterexample: float16 and bfloat16 have equal promotion ranks, so
the left operand wins in both orders and promotion is not commutative. -/
theorem C10_counterexample :
    PromoteArithmeticTypes (some DType.float16) (some DType.bfloat16) ≠
      PromoteArithmeticTypes (some DType.bfloat16) (some DType.float16) := by
  decide

/-- C10 amended: promotion is commutative for every pair of dtypes except the
equal-width distinct float pairs (float16 with bfloat16, float8_e4m3fn with
float8_e4m3fnuz), where the left-wins tie-break is observable. -/
theorem C10_commutative_outside_float_ties : ∀ a b : DType,
    ¬(a ≠ b ∧ a.is_float = true ∧ b.is_float = true ∧
      a.bit_count = b.bit_count) →
    PromoteArithmeticTypes (some a) (some b) =
      PromoteArithmeticTypes (some b) (some a) := by
  decide

/-- C10 witness: the signed/unsigned 8-bit pair commutes via escalation. -/
theorem C10_witness :
    PromoteArithmeticTypes (some DType.int8) (some DType.uint8) =
      PromoteArithmeticTypes (some DType.uint8) (some DType.int8) :=
  C10_commutative_outside_float_ties DType.int8 DType.uint8 (by decide)

end ShortfinHostOps
